import Mathlib

/-!
Shallow embedding of the jd-crm backend (src/main.py, src/models.py)
for verification of its specification.

Modelling conventions:
* Monetary amounts (SQL `Float` columns / Python `float`) are modelled as
  exact rationals `ℚ`; the Python arithmetic on them (`* 0.10`, sums,
  subtraction, comparison) is carried over verbatim to `ℚ`.
* Datetimes are modelled as an abstract integer timeline `Time` (days);
  `datetime.now()` becomes an explicit `now : Time` parameter and
  `timedelta(days=k)` becomes `+ k`.
* The SQLAlchemy session is modelled as an explicit database state `DB`
  holding the rows of each table as a list.  A handler becomes a function
  `args → DB → DB × Except HTTPError α`: on success it returns the
  committed state, and raising `HTTPException` after `db.rollback()` (or
  before any mutation) returns the original state together with the error.
  `db.commit()` failure is modelled by a boolean `commit_ok` parameter on
  the one handler (`create_booking`) that wraps its body in
  `try/except → rollback`.
* Python truthiness of `Optional[float]` (`x or y`, `if x:`) is modelled
  by `pyOr` / `pyTruthy`: `None` and `0` are falsy.
* Nullable columns are `Option`; row ids are `Nat` with per-table
  autoincrement counters in `DB`.
* Rows irrelevant to every verified claim (Document, Interaction, Project)
  and columns that are copied verbatim from the request into a row but
  never read by any modelled operation (the applicant / co-applicant KYC
  strings, `charges`, `parking_type`, payment mode/bank, timestamps of
  creation) are elided from the row structures.
-/

namespace CRM

/-- Abstract timeline, in days (stands for `datetime`). -/
abbrev Time := Int

/-- `fastapi.HTTPException`: a status code and a detail message. -/
structure HTTPError where
  status_code : Nat
  detail : String
deriving Repr, DecidableEq

/-- Python truthiness of an `Optional[float]`: `None` and `0.0` are falsy. -/
def pyTruthy : Option ℚ → Bool
  | none => false
  | some v => v ≠ 0

/-- Python `x or y` for `x : Optional[float]`, `y : float`. -/
def pyOr (x : Option ℚ) (y : ℚ) : ℚ :=
  match x with
  | none => y
  | some v => if v = 0 then y else v

/-- `models.User` (the columns read or written by the modelled handlers). -/
structure User where
  id : Nat
  active_leads_count : Int
  capacity : Int
deriving Repr, DecidableEq

/-- `models.Lead` (the columns read or written by the modelled handlers). -/
structure Lead where
  id : Nat
  status : String
  owner_id : Option Nat
  next_followup : Option Time
  last_contact : Option Time
deriving Repr, DecidableEq

/-- `models.Unit` (the columns read or written by the modelled handlers). -/
structure Unit where
  id : Nat
  status : String
  booking_id : Option Nat
deriving Repr, DecidableEq

/-- `models.Booking` (the columns read or written by the modelled handlers). -/
structure Booking where
  id : Nat
  lead_id : Nat
  project_id : Nat
  unit_id : Nat
  unit_number : String
  deal_amount : ℚ
  booking_amount : Option ℚ
  status : String
deriving Repr, DecidableEq

/-- `models.PaymentSchedule` (all business columns). -/
structure PaymentSchedule where
  id : Nat
  booking_id : Nat
  milestone : String
  due_date : Option Time
  amount : ℚ
  payer : String
  status : String
  payment_date : Option Time
  payment_ref : Option String
deriving Repr, DecidableEq

/-- The relational store: one list of rows per table, plus the
autoincrement counters for the two tables the modelled handlers insert
into. -/
structure DB where
  users : List User
  leads : List Lead
  units : List Unit
  bookings : List Booking
  payment_schedules : List PaymentSchedule
  next_booking_id : Nat
  next_schedule_id : Nat
deriving Repr, DecidableEq

/-- In-place mutation of the row returned by `query(...).filter(p).first()`:
apply `f` to the first element satisfying `p`, keep the rest. -/
def updateFirst (p : α → Bool) (f : α → α) : List α → List α
  | [] => []
  | x :: xs => if p x then f x :: xs else x :: updateFirst p f xs

/-- Pydantic `AssignLeadRequest`. -/
structure AssignLeadRequest where
  user_id : Nat
deriving Repr, DecidableEq

/-- Pydantic `BookingCreate` (the fields the modelled handler reads;
the KYC / payment-metadata strings it merely copies are elided, and
`payment_date: Optional[str]` is modelled already parsed). -/
structure BookingCreate where
  lead_id : Nat
  project_id : Nat
  unit_id : Nat
  unit_number : String
  deal_amount : ℚ
  base_cost : ℚ
  payment_date : Option Time
  booking_amount : Option ℚ
deriving Repr, DecidableEq

/-- Pydantic `PaymentRecord` (`payment_date: Optional[str]` modelled
already parsed). -/
structure PaymentRecord where
  booking_id : Nat
  milestone : String
  amount : Option ℚ
  payment_ref : Option String
  payment_date : Option Time
  payer : String
deriving Repr, DecidableEq

/-- `POST /api/leads/{lead_id}/assign` (src/main.py:316-346). -/
def assign_lead (lead_id : Nat) (assign_data : AssignLeadRequest) (now : Time)
    (db : DB) : DB × Except HTTPError String :=
  match db.leads.find? (fun l => l.id == lead_id) with
  | none => (db, .error ⟨404, "Lead not found"⟩)
  | some _ =>
    match db.users.find? (fun u => u.id == assign_data.user_id) with
    | none => (db, .error ⟨404, "User not found"⟩)
    | some user =>
      if user.active_leads_count ≥ user.capacity then
        (db, .error ⟨400, "User has reached capacity"⟩)
      else
        ({ db with
            leads := updateFirst (fun l => l.id == lead_id)
              (fun l => { l with
                owner_id := some assign_data.user_id,
                status := "IN_PROGRESS",
                last_contact := some now }) db.leads,
            users := updateFirst (fun u => u.id == assign_data.user_id)
              (fun u => { u with active_leads_count := u.active_leads_count + 1 })
              db.users },
          .ok "Lead assigned")

/-- The five-row payment-schedule template materialised by
`create_booking` (src/main.py:569-616), with autoincremented ids. -/
def bookingSchedules (bid : Nat) (sid : Nat) (booking_data : BookingCreate)
    (now : Time) : List PaymentSchedule :=
  [ { id := sid, booking_id := bid, milestone := "Booking Token",
      amount := pyOr booking_data.booking_amount (booking_data.deal_amount * 0.10),
      payer := "Customer",
      status := if pyTruthy booking_data.booking_amount then "Paid" else "Pending",
      due_date := some now, payment_date := none, payment_ref := none },
    { id := sid + 1, booking_id := bid, milestone := "Allotment",
      amount := booking_data.deal_amount * 0.25,
      payer := "Customer", status := "Pending",
      due_date := some (now + 30), payment_date := none, payment_ref := none },
    { id := sid + 2, booking_id := bid, milestone := "Agreement Signing",
      amount := booking_data.deal_amount * 0.10,
      payer := "Customer", status := "Pending",
      due_date := some (now + 45), payment_date := none, payment_ref := none },
    { id := sid + 3, booking_id := bid, milestone := "Bank Disbursement",
      amount := booking_data.deal_amount * 0.60,
      payer := "Bank Loan", status := "Pending",
      due_date := some (now + 60), payment_date := none, payment_ref := none },
    { id := sid + 4, booking_id := bid, milestone := "Possession",
      amount := booking_data.deal_amount * 0.05,
      payer := "Customer", status := "Pending",
      due_date := some (now + 180), payment_date := none, payment_ref := none } ]

/-- The `models.Booking` row inserted by `create_booking`
(src/main.py:522-551). -/
def newBookingRow (bid : Nat) (booking_data : BookingCreate) : Booking :=
  { id := bid,
    lead_id := booking_data.lead_id,
    project_id := booking_data.project_id,
    unit_id := booking_data.unit_id,
    unit_number := booking_data.unit_number,
    deal_amount := booking_data.deal_amount,
    booking_amount := booking_data.booking_amount,
    status := "PENDING" }

/-- `POST /api/booking` (src/main.py:507-633).  The body runs inside
`try/except`.  `db.flush()` (line 554) enforces the schema's foreign keys
(models.py: `bookings.lead_id → leads.id` and `bookings.created_by →
users.id`, `created_by` being hardcoded to 1; the engine of database.py is
PostgreSQL, which checks them at statement time): when the referenced lead
or user 1 is absent, the insert raises IntegrityError, which the handler
turns into a rollback and a 500 error with the store unchanged.
`bookings.unit_id` and `bookings.project_id` carry no foreign key, so a
missing unit or project cannot fail.  The five PaymentSchedule inserts
reference the booking just created, so their `booking_id` foreign key
always holds here.  A later `db.commit()` failure (modelled by
`commit_ok = false`) is likewise rolled back into a 500. -/
def create_booking (booking_data : BookingCreate) (now : Time)
    (commit_ok : Bool) (db : DB) : DB × Except HTTPError Nat :=
  match db.leads.find? (fun l => l.id == booking_data.lead_id),
        db.users.find? (fun u => u.id == 1) with
  | some _, some _ =>
    let bid := db.next_booking_id
    let db1 := { db with
      bookings := db.bookings ++ [newBookingRow bid booking_data],
      next_booking_id := bid + 1 }
    -- `unit = query(Unit).filter(id == unit_id).first(); if unit: ...`
    let db2 := { db1 with
      units := updateFirst (fun u => u.id == booking_data.unit_id)
        (fun u => { u with status := "Blocked", booking_id := some bid }) db1.units }
    -- `lead = query(Lead).filter(id == lead_id).first(); if lead: ...`
    let db3 := { db2 with
      leads := updateFirst (fun l => l.id == booking_data.lead_id)
        (fun l => { l with status := "BOOKED", next_followup := none }) db2.leads }
    let db4 := { db3 with
      payment_schedules :=
        db3.payment_schedules ++ bookingSchedules bid db.next_schedule_id booking_data now,
      next_schedule_id := db.next_schedule_id + 5 }
    if commit_ok then
      (db4, .ok bid)
    else
      (db, .error ⟨500, "Booking creation failed"⟩)
  | _, _ => (db, .error ⟨500, "Booking creation failed"⟩)

/-- `PATCH /api/booking/{booking_id}/confirm` (src/main.py:678-697). -/
def confirm_booking (booking_id : Nat) (db : DB) : DB × Except HTTPError String :=
  match db.bookings.find? (fun b => b.id == booking_id) with
  | none => (db, .error ⟨404, "Booking not found"⟩)
  | some booking =>
    if booking.status ≠ "PENDING" then
      (db, .error ⟨400, "Booking is not in pending state"⟩)
    else
      ({ db with
          bookings := updateFirst (fun b => b.id == booking_id)
            (fun b => { b with status := "CONFIRMED" }) db.bookings,
          units := updateFirst (fun u => u.id == booking.unit_id)
            (fun u => { u with status := "Booked" }) db.units },
        .ok "Booking confirmed")

/-- `PATCH /api/booking/{booking_id}/cancel` (src/main.py:699-721). -/
def cancel_booking (booking_id : Nat) (db : DB) : DB × Except HTTPError String :=
  match db.bookings.find? (fun b => b.id == booking_id) with
  | none => (db, .error ⟨404, "Booking not found"⟩)
  | some booking =>
      ({ db with
          bookings := updateFirst (fun b => b.id == booking_id)
            (fun b => { b with status := "CANCELLED" }) db.bookings,
          units := updateFirst (fun u => u.id == booking.unit_id)
            (fun u => { u with status := "Available", booking_id := none }) db.units,
          leads := updateFirst (fun l => l.id == booking.lead_id)
            (fun l => { l with status := "NEGOTIATION" }) db.leads },
        .ok "Booking cancelled")

/-- `POST /api/finance/payment` (src/main.py:841-883). -/
def record_payment (payment_data : PaymentRecord) (now : Time) (db : DB) :
    DB × Except HTTPError String :=
  let p : PaymentSchedule → Bool := fun s =>
    s.booking_id == payment_data.booking_id && s.milestone == payment_data.milestone
  match db.payment_schedules.find? p with
  | none =>
    -- Create a new payment record if not found
    let schedule : PaymentSchedule :=
      { id := db.next_schedule_id,
        booking_id := payment_data.booking_id,
        milestone := payment_data.milestone,
        due_date := none,
        amount := pyOr payment_data.amount 0,
        payer := payment_data.payer,
        status := "Paid",
        payment_ref := payment_data.payment_ref,
        payment_date := some (payment_data.payment_date.getD now) }
    ({ db with
        payment_schedules := db.payment_schedules ++ [schedule],
        next_schedule_id := db.next_schedule_id + 1 },
      .ok "Payment recorded")
  | some _ =>
    -- Update existing schedule; `if payment_data.amount:` is truthiness
    ({ db with
        payment_schedules := updateFirst p
          (fun s => { s with
            status := "Paid",
            payment_date := some (payment_data.payment_date.getD now),
            payment_ref := payment_data.payment_ref,
            amount := if pyTruthy payment_data.amount
              then payment_data.amount.getD s.amount else s.amount })
          db.payment_schedules },
      .ok "Payment recorded")

/-- `POST /api/finance/schedule/{booking_id}/pay` (src/main.py:885-915). -/
def mark_payment_paid (booking_id : Nat) (milestone : String)
    (payment_ref : Option String) (now : Time) (db : DB) :
    DB × Except HTTPError String :=
  let p : PaymentSchedule → Bool := fun s =>
    s.booking_id == booking_id && s.milestone == milestone
  match db.payment_schedules.find? p with
  | none => (db, .error ⟨404, "Payment schedule not found"⟩)
  | some schedule =>
    if schedule.status == "Paid" then
      (db, .error ⟨400, "Payment already marked as paid"⟩)
    else
      ({ db with
          payment_schedules := updateFirst p
            (fun s => { s with
              status := "Paid",
              payment_date := some now,
              payment_ref := payment_ref })
            db.payment_schedules },
        .ok "Paid")

/-- The schedule rows of one booking
(`query(PaymentSchedule).filter(booking_id == b).all()`). -/
def schedulesFor (booking_id : Nat) (db : DB) : List PaymentSchedule :=
  db.payment_schedules.filter (fun s => s.booking_id == booking_id)

/-- `total_amount = sum(s.amount for s in schedules)`. -/
def totalAmount (schedules : List PaymentSchedule) : ℚ :=
  (schedules.map (fun s => s.amount)).sum

/-- `paid_amount = sum(s.amount for s in schedules if s.status == "Paid")`. -/
def paidAmount (schedules : List PaymentSchedule) : ℚ :=
  ((schedules.filter (fun s => s.status == "Paid")).map (fun s => s.amount)).sum

/-- The `status` string computed by
`GET /api/finance/ledger-status/{booking_id}` (src/main.py:917-952). -/
def get_ledger_status (booking_id : Nat) (db : DB) : String :=
  let schedules := schedulesFor booking_id db
  if schedules.isEmpty then "No Schedule"
  else
    let total_amount := totalAmount schedules
    let paid_amount := paidAmount schedules
    let pending_amount := total_amount - paid_amount
    if pending_amount > 0 then "Ledger Active" else "Ledger Closed"

/-- The `status` string computed by
`GET /api/finance/summary/{booking_id}` (src/main.py:802-839): here the
total is `booking.deal_amount`, not the schedule-row sum. -/
def finance_summary_status (booking : Booking) (db : DB) : String :=
  let schedules := schedulesFor booking.id db
  let total_amount := booking.deal_amount
  let paid_amount := paidAmount schedules
  let pending_amount := total_amount - paid_amount
  if pending_amount > 0 then "Ledger Active" else "Ledger Closed"

/-- Round half to even, the rounding Python's fixed-point float
formatting (`:.2f`, `:,.0f`) applies.  Computed on the reduced
numerator/denominator: `f = ⌊q⌋` and `r/d = q - f` with `0 ≤ r < d`. -/
def rne (q : ℚ) : ℤ :=
  let d : ℤ := (q.den : ℤ)
  let f : ℤ := Int.fdiv q.num d
  let r : ℤ := q.num - f * d
  if 2 * r < d then f
  else if 2 * r > d then f + 1
  else if f % 2 = 0 then f else f + 1

/-- Python `f"{q:.2f}"` on an exact rational. -/
def fmt2 (q : ℚ) : String :=
  let n := rne (q * 100)
  let a := n.natAbs
  (if n < 0 then "-" else "")
    ++ Nat.repr (a / 100) ++ "."
    ++ (if a % 100 < 10 then "0" else "") ++ Nat.repr (a % 100)

/-- Insert a comma after every third digit of a reversed digit list. -/
def groupChars : List Char → List Char
  | a :: b :: c :: d :: rest => a :: b :: c :: ',' :: groupChars (d :: rest)
  | l => l

/-- Western thousands grouping of a decimal digit string. -/
def groupDigits (s : String) : String :=
  String.mk (groupChars s.toList.reverse).reverse

/-- Python `f"{q:,.0f}"` on an exact rational (the signed float zero
`-0.0`, a binary-float artefact, has no rational counterpart and is not
modelled). -/
def fmt0Grouped (q : ℚ) : String :=
  let n := rne q
  (if n < 0 then "-" else "") ++ groupDigits (Nat.repr n.natAbs)

/-- `format_amount` (src/main.py:725-732): Indian-numbering currency
rendering. -/
def format_amount (amount : ℚ) : String :=
  if amount ≥ 10000000 then "₹" ++ fmt2 (amount / 10000000) ++ " Cr"
  else if amount ≥ 100000 then "₹" ++ fmt2 (amount / 100000) ++ " L"
  else "₹" ++ fmt0Grouped amount

/-! ### Concrete fixtures used by witnesses and counterexamples -/

/-- The creator user (`created_by` is hardcoded to 1 in create_booking). -/
def exUser1 : User := { id := 1, active_leads_count := 0, capacity := 50 }

/-- A lead in negotiation, owned by user 1. -/
def exLead1 : Lead :=
  { id := 1, status := "NEGOTIATION", owner_id := some 1,
    next_followup := none, last_contact := none }

/-- An available unit. -/
def exUnit1 : Unit := { id := 1, status := "Available", booking_id := none }

/-- A store holding user 1, lead 1 and unit 1, ready for a booking. -/
def exDBfull : DB :=
  { users := [exUser1], leads := [exLead1], units := [exUnit1], bookings := [],
    payment_schedules := [], next_booking_id := 1, next_schedule_id := 1 }

/-- A store holding only the creator user 1: no leads, no units. -/
def exDBuserOnly : DB :=
  { users := [exUser1], leads := [], units := [], bookings := [],
    payment_schedules := [], next_booking_id := 1, next_schedule_id := 1 }

/-- A store with user 1 and lead 1 but no units. -/
def exDBnoUnit : DB :=
  { users := [exUser1], leads := [exLead1], units := [], bookings := [],
    payment_schedules := [], next_booking_id := 1, next_schedule_id := 1 }

/-- A booking request whose optional `booking_amount` is supplied as `0`. -/
def exBD_zero : BookingCreate :=
  { lead_id := 1, project_id := 1, unit_id := 1, unit_number := "101",
    deal_amount := 100, base_cost := 90, payment_date := none,
    booking_amount := some 0 }

/-- A booking request with a negative deal amount (accepted: `deal_amount`
is an unvalidated `float`). -/
def exBD_neg : BookingCreate :=
  { lead_id := 1, project_id := 1, unit_id := 1, unit_number := "102",
    deal_amount := -100, base_cost := -100, payment_date := none,
    booking_amount := none }

/-- A unit currently blocked by booking 1. -/
def exUnit : Unit := { id := 1, status := "Blocked", booking_id := some 1 }

/-- A lead currently booked. -/
def exLead : Lead :=
  { id := 1, status := "BOOKED", owner_id := none,
    next_followup := none, last_contact := none }

/-- A booking that is already cancelled. -/
def exBookingCancelled : Booking :=
  { id := 1, lead_id := 1, project_id := 1, unit_id := 1, unit_number := "101",
    deal_amount := 100, booking_amount := none, status := "CANCELLED" }

/-- A booking that is already confirmed. -/
def exBookingConfirmed : Booking :=
  { id := 2, lead_id := 1, project_id := 1, unit_id := 1, unit_number := "101",
    deal_amount := 100, booking_amount := none, status := "CONFIRMED" }

/-- A store holding the two bookings above with their unit and lead. -/
def exDB34 : DB :=
  { users := [], leads := [exLead], units := [exUnit],
    bookings := [exBookingCancelled, exBookingConfirmed],
    payment_schedules := [], next_booking_id := 3, next_schedule_id := 1 }

/-- A fully paid single-row schedule for booking 1. -/
def exSchedPaid : PaymentSchedule :=
  { id := 1, booking_id := 1, milestone := "Booking Token", due_date := none,
    amount := 5, payer := "Customer", status := "Paid",
    payment_date := none, payment_ref := none }

/-- A store whose booking 1 has one Paid schedule row of amount 5. -/
def exDB5 : DB :=
  { users := [], leads := [], units := [], bookings := [exBookingCancelled],
    payment_schedules := [exSchedPaid], next_booking_id := 2, next_schedule_id := 2 }

/-- A pending schedule row for booking 1, amount 50. -/
def exSchedPending : PaymentSchedule :=
  { id := 1, booking_id := 1, milestone := "Booking Token", due_date := none,
    amount := 50, payer := "Customer", status := "Pending",
    payment_date := none, payment_ref := none }

/-- A store whose booking 1 has one Pending schedule row of amount 50. -/
def exDB6 : DB :=
  { users := [], leads := [], units := [], bookings := [exBookingCancelled],
    payment_schedules := [exSchedPending], next_booking_id := 2, next_schedule_id := 2 }

/-- A user whose active-lead counter has reached capacity. -/
def exUserFull : User := { id := 1, active_leads_count := 50, capacity := 50 }

/-- An unassigned lead. -/
def exLeadNew : Lead :=
  { id := 2, status := "NEW", owner_id := none,
    next_followup := none, last_contact := none }

/-- A store with a full user and a fresh lead. -/
def exDB7 : DB :=
  { users := [exUserFull], leads := [exLeadNew], units := [], bookings := [],
    payment_schedules := [], next_booking_id := 1, next_schedule_id := 1 }

/-! ### Helper lemmas about `updateFirst` -/

theorem updateFirst_eq_of_find?_none {α : Type} {p : α → Bool} {f : α → α} :
    ∀ {l : List α}, l.find? p = none → updateFirst p f l = l := by
  intro l h
  induction l with
  | nil => rfl
  | cons x xs ih =>
    rw [List.find?_cons] at h
    cases hx : p x with
    | true => rw [hx] at h; exact absurd h (by simp)
    | false =>
      rw [hx] at h
      simp only [updateFirst, hx, Bool.false_eq_true, if_false]
      rw [ih h]

theorem find?_updateFirst {α : Type} {p : α → Bool} {f : α → α}
    (hf : ∀ x, p (f x) = p x) :
    ∀ l : List α, (updateFirst p f l).find? p = (l.find? p).map f := by
  intro l
  induction l with
  | nil => rfl
  | cons x xs ih =>
    cases hx : p x with
    | true =>
      simp only [updateFirst, hx, if_true]
      rw [List.find?_cons, hf x, hx, List.find?_cons, hx]
      rfl
    | false =>
      simp only [updateFirst, hx, Bool.false_eq_true, if_false]
      rw [List.find?_cons, hx, List.find?_cons, hx]
      exact ih

theorem find?_updateFirst_some {α : Type} {p : α → Bool} {f : α → α}
    {l : List α} {a : α} (hf : ∀ x, p (f x) = p x) (h : l.find? p = some a) :
    (updateFirst p f l).find? p = some (f a) := by
  rw [find?_updateFirst hf l, h]
  rfl

/-! ### Claim theorems -/

/-- C2: booking creation is atomic.  For every request, either all of the
Booking insert, the (conditional) Unit update, the (conditional) Lead
update, and the five PaymentSchedule inserts are committed together in one
new state, or the transaction is rolled back entirely, the store is left
exactly as it was, and a 500 error is reported — no partial booking state
is ever observable. -/
theorem C2_booking_creation_atomic (booking_data : BookingCreate) (now : Time)
    (commit_ok : Bool) (db : DB) :
    (∃ e : HTTPError, create_booking booking_data now commit_ok db = (db, .error e)
      ∧ e.status_code = 500)
    ∨ (create_booking booking_data now commit_ok db =
        ({ db with
            bookings := db.bookings ++ [newBookingRow db.next_booking_id booking_data],
            units := updateFirst (fun u => u.id == booking_data.unit_id)
              (fun u => { u with status := "Blocked",
                                 booking_id := some db.next_booking_id }) db.units,
            leads := updateFirst (fun l => l.id == booking_data.lead_id)
              (fun l => { l with status := "BOOKED", next_followup := none }) db.leads,
            payment_schedules := db.payment_schedules
              ++ bookingSchedules db.next_booking_id db.next_schedule_id booking_data now,
            next_booking_id := db.next_booking_id + 1,
            next_schedule_id := db.next_schedule_id + 5 },
          .ok db.next_booking_id)) := by
  rcases hl : db.leads.find? (fun l => l.id == booking_data.lead_id) with _ | l0
  · refine .inl ⟨⟨500, "Booking creation failed"⟩, ?_, rfl⟩
    simp only [create_booking, hl]
  · rcases hu : db.users.find? (fun u => u.id == 1) with _ | u0
    · refine .inl ⟨⟨500, "Booking creation failed"⟩, ?_, rfl⟩
      simp only [create_booking, hl, hu]
    · cases commit_ok with
      | false =>
        refine .inl ⟨⟨500, "Booking creation failed"⟩, ?_, rfl⟩
        simp only [create_booking, hl, hu]
        rfl
      | true =>
        refine .inr ?_
        simp only [create_booking, hl, hu, reduceIte]

/-- C8: format_amount renders amounts ≥ 10,000,000 as the amount divided
by 10,000,000 with two decimals followed by " Cr", amounts in
[100,000, 10,000,000) as the amount divided by 100,000 with two decimals
followed by " L", and smaller amounts as a thousands-grouped integer, all
prefixed with the rupee symbol; in particular
format_amount(12345678) = "₹1.23 Cr", format_amount(250000) = "₹2.50 L",
format_amount(500) = "₹500". -/
theorem C8_format_amount_spec :
    (∀ a : ℚ, a ≥ 10000000 → format_amount a = "₹" ++ fmt2 (a / 10000000) ++ " Cr")
    ∧ (∀ a : ℚ, a ≥ 100000 → a < 10000000 →
        format_amount a = "₹" ++ fmt2 (a / 100000) ++ " L")
    ∧ (∀ a : ℚ, a < 100000 → format_amount a = "₹" ++ fmt0Grouped a)
    ∧ format_amount 12345678 = "₹1.23 Cr"
    ∧ format_amount 250000 = "₹2.50 L"
    ∧ format_amount 500 = "₹500" := by
  refine ⟨?_, ?_, ?_, ?_, ?_, ?_⟩
  · intro a h
    rw [format_amount, if_pos h]
  · intro a h1 h2
    rw [format_amount, if_neg (not_le.mpr h2), if_pos h1]
  · intro a h
    have h1 : ¬ (a ≥ 10000000) := not_le.mpr (lt_trans h (by norm_num))
    have h2 : ¬ (a ≥ 100000) := not_le.mpr h
    rw [format_amount, if_neg h1, if_neg h2]
  · with_unfolding_all rfl
  · with_unfolding_all rfl
  · with_unfolding_all rfl

/-- Witness for C8: the first branch applied at 12,345,678. -/
theorem C8_format_amount_spec_witness :
    (12345678 : ℚ) ≥ 10000000
    ∧ format_amount 12345678 = "₹" ++ fmt2 ((12345678 : ℚ) / 10000000) ++ " Cr" := by
  have h : (12345678 : ℚ) ≥ 10000000 := by norm_num
  exact ⟨h, C8_format_amount_spec.1 12345678 h⟩

/-- C1 counterexample: the claim fails when `booking_amount` is supplied
as `0` (deal amount 100), on a store that contains the referenced lead 1,
unit 1 and creator user 1, so the real insert passes its foreign keys and
the creation succeeds.  The claim predicts a first row of amount 0 with
status "Paid"; the code treats the supplied `0` as absent (Python
truthiness of `booking_amount or deal_amount * 0.10`), producing amount 10
and status "Pending". -/
theorem C1_counterexample :
    exBD_zero.booking_amount = some 0
    ∧ ((create_booking exBD_zero 0 true exDBfull).2 = .ok 1)
    ∧ ((schedulesFor 1 (create_booking exBD_zero 0 true exDBfull).1).map (fun s => s.amount)
        = [10, 25, 10, 60, 5])
    ∧ ((schedulesFor 1 (create_booking exBD_zero 0 true exDBfull).1).map (fun s => s.amount)
        ≠ [0, 25, 10, 60, 5])
    ∧ ((schedulesFor 1 (create_booking exBD_zero 0 true exDBfull).1).map (fun s => s.status)
        = ["Pending", "Pending", "Pending", "Pending", "Pending"]) := by
  refine ⟨rfl, ?_, ?_, ?_, ?_⟩
  · with_unfolding_all rfl
  · with_unfolding_all rfl
  · with_unfolding_all decide
  · with_unfolding_all rfl

/-- C1 (amended): for every successful booking creation with deal amount
A, exactly five PaymentSchedule rows are created for the new booking, in
the order Booking Token, Allotment, Agreement Signing, Bank Disbursement,
Possession, with amounts [booking_amount if supplied and nonzero else
0.10·A, 0.25·A, 0.10·A, 0.60·A, 0.05·A], payers [Customer, Customer,
Customer, Bank Loan, Customer], due-date offsets [now, +30 days, +45 days,
+60 days, +180 days], and statuses all Pending except the Booking Token
row, which is Paid iff booking_amount is supplied and nonzero (Python
truthiness).  "Successful" requires the referenced lead and the creator
user 1 to exist, since the insert's foreign keys fail otherwise. -/
theorem C1_payment_schedule_template (booking_data : BookingCreate)
    (now : Time) (db : DB) (l0 : Lead) (u0 : User)
    (hl : db.leads.find? (fun l => l.id == booking_data.lead_id) = some l0)
    (hu : db.users.find? (fun u => u.id == 1) = some u0) :
    ((create_booking booking_data now true db).2 = .ok db.next_booking_id)
    ∧ (∃ rows : List PaymentSchedule,
        (create_booking booking_data now true db).1.payment_schedules
          = db.payment_schedules ++ rows
        ∧ rows.length = 5
        ∧ rows.map (fun s => s.milestone)
            = ["Booking Token", "Allotment", "Agreement Signing",
               "Bank Disbursement", "Possession"]
        ∧ rows.map (fun s => s.amount)
            = [(match booking_data.booking_amount with
                | some v => if v = 0 then booking_data.deal_amount * 0.10 else v
                | none => booking_data.deal_amount * 0.10),
               booking_data.deal_amount * 0.25,
               booking_data.deal_amount * 0.10,
               booking_data.deal_amount * 0.60,
               booking_data.deal_amount * 0.05]
        ∧ rows.map (fun s => s.payer)
            = ["Customer", "Customer", "Customer", "Bank Loan", "Customer"]
        ∧ rows.map (fun s => s.due_date)
            = [some now, some (now + 30), some (now + 45),
               some (now + 60), some (now + 180)]
        ∧ rows.map (fun s => s.status)
            = [(match booking_data.booking_amount with
                | some v => if v = 0 then "Pending" else "Paid"
                | none => "Pending"),
               "Pending", "Pending", "Pending", "Pending"]
        ∧ ∀ s ∈ rows, s.booking_id = db.next_booking_id) := by
  have hrun : create_booking booking_data now true db
      = ({ db with
            bookings := db.bookings ++ [newBookingRow db.next_booking_id booking_data],
            units := updateFirst (fun u => u.id == booking_data.unit_id)
              (fun u => { u with status := "Blocked",
                                 booking_id := some db.next_booking_id }) db.units,
            leads := updateFirst (fun l => l.id == booking_data.lead_id)
              (fun l => { l with status := "BOOKED", next_followup := none }) db.leads,
            payment_schedules := db.payment_schedules
              ++ bookingSchedules db.next_booking_id db.next_schedule_id booking_data now,
            next_booking_id := db.next_booking_id + 1,
            next_schedule_id := db.next_schedule_id + 5 },
          .ok db.next_booking_id) := by
    simp only [create_booking, hl, hu, reduceIte]
  rw [hrun]
  refine ⟨rfl,
    bookingSchedules db.next_booking_id db.next_schedule_id booking_data now,
    rfl, rfl, rfl, ?_, rfl, rfl, ?_, ?_⟩
  · cases hba : booking_data.booking_amount with
    | none => simp [bookingSchedules, pyOr, hba]
    | some v =>
      by_cases hv : v = 0 <;> simp [bookingSchedules, pyOr, hba, hv]
  · cases hba : booking_data.booking_amount with
    | none => simp [bookingSchedules, pyTruthy, hba]
    | some v =>
      by_cases hv : v = 0 <;> simp [bookingSchedules, pyTruthy, hba, hv]
  · intro s hs
    fin_cases hs <;> rfl

/-- Witness for C1 (amended): on the store with lead 1, unit 1 and user 1,
the zero-booking_amount request succeeds with booking id 1. -/
theorem C1_payment_schedule_template_witness :
    exDBfull.leads.find? (fun l => l.id == exBD_zero.lead_id) = some exLead1
    ∧ exDBfull.users.find? (fun u => u.id == 1) = some exUser1
    ∧ ((create_booking exBD_zero 0 true exDBfull).2
        = .ok exDBfull.next_booking_id) := by
  have hl : exDBfull.leads.find? (fun l => l.id == exBD_zero.lead_id)
      = some exLead1 := by
    with_unfolding_all rfl
  have hu : exDBfull.users.find? (fun u => u.id == 1) = some exUser1 := by
    with_unfolding_all rfl
  exact ⟨hl, hu,
    (C1_payment_schedule_template exBD_zero 0 exDBfull exLead1 exUser1 hl hu).1⟩

/-- C3: cancelling an existing booking succeeds with no precondition on
its current status (including one already CANCELLED), sets the booking's
status to CANCELLED, leaves the referenced unit with status "Available"
and its booking link cleared, and the referenced lead with status
"NEGOTIATION". -/
theorem C3_cancel_booking_resets (booking_id : Nat) (db : DB) (b : Booking)
    (hfind : db.bookings.find? (fun x => x.id == booking_id) = some b) :
    ((cancel_booking booking_id db).2 = .ok "Booking cancelled")
    ∧ ((cancel_booking booking_id db).1.bookings.find? (fun x => x.id == booking_id)
        = some { b with status := "CANCELLED" })
    ∧ ((cancel_booking booking_id db).1.units.find? (fun u => u.id == b.unit_id)
        = (db.units.find? (fun u => u.id == b.unit_id)).map
            (fun u => { u with status := "Available", booking_id := none }))
    ∧ ((cancel_booking booking_id db).1.leads.find? (fun l => l.id == b.lead_id)
        = (db.leads.find? (fun l => l.id == b.lead_id)).map
            (fun l => { l with status := "NEGOTIATION" })) := by
  refine ⟨?_, ?_, ?_, ?_⟩
  · simp only [cancel_booking, hfind]
  · simp only [cancel_booking, hfind]
    exact find?_updateFirst_some (by intro x; rfl) hfind
  · simp only [cancel_booking, hfind]
    exact find?_updateFirst (by intro x; rfl) db.units
  · simp only [cancel_booking, hfind]
    exact find?_updateFirst (by intro x; rfl) db.leads

/-- Witness for C3: cancelling the already-CANCELLED booking 1 still
succeeds and resets its unit. -/
theorem C3_cancel_booking_resets_witness :
    (exDB34.bookings.find? (fun x => x.id == 1) = some exBookingCancelled)
    ∧ ((cancel_booking 1 exDB34).2 = .ok "Booking cancelled")
    ∧ ((cancel_booking 1 exDB34).1.units.find?
          (fun u => u.id == exBookingCancelled.unit_id)
        = some { exUnit with status := "Available", booking_id := none }) := by
  have h : exDB34.bookings.find? (fun x => x.id == 1) = some exBookingCancelled := by
    with_unfolding_all rfl
  refine ⟨h, (C3_cancel_booking_resets 1 exDB34 exBookingCancelled h).1, ?_⟩
  rw [(C3_cancel_booking_resets 1 exDB34 exBookingCancelled h).2.2.1]
  with_unfolding_all rfl

/-- C4: confirming a non-PENDING booking fails with a 400 error and no
mutation of the store; confirming a PENDING booking sets it CONFIRMED and
the referenced unit's status to "Booked". -/
theorem C4_confirm_booking_guard (booking_id : Nat) (db : DB) (b : Booking)
    (hfind : db.bookings.find? (fun x => x.id == booking_id) = some b) :
    (b.status ≠ "PENDING" →
      confirm_booking booking_id db
        = (db, .error ⟨400, "Booking is not in pending state"⟩))
    ∧ (b.status = "PENDING" →
      ((confirm_booking booking_id db).2 = .ok "Booking confirmed")
      ∧ ((confirm_booking booking_id db).1.bookings.find? (fun x => x.id == booking_id)
          = some { b with status := "CONFIRMED" })
      ∧ ((confirm_booking booking_id db).1.units.find? (fun u => u.id == b.unit_id)
          = (db.units.find? (fun u => u.id == b.unit_id)).map
              (fun u => { u with status := "Booked" }))) := by
  constructor
  · intro hs
    simp only [confirm_booking, hfind]
    rw [if_pos hs]
  · intro hs
    have hns : ¬ (b.status ≠ "PENDING") := fun h => h hs
    refine ⟨?_, ?_, ?_⟩
    · simp only [confirm_booking, hfind]
      rw [if_neg hns]
    · simp only [confirm_booking, hfind]
      rw [if_neg hns]
      exact find?_updateFirst_some (by intro x; rfl) hfind
    · simp only [confirm_booking, hfind]
      rw [if_neg hns]
      exact find?_updateFirst (by intro x; rfl) db.units

/-- Witness for C4: confirming the CONFIRMED booking 2 fails with a 400
error and leaves the store untouched. -/
theorem C4_confirm_booking_guard_witness :
    (exDB34.bookings.find? (fun x => x.id == 2) = some exBookingConfirmed)
    ∧ exBookingConfirmed.status ≠ "PENDING"
    ∧ confirm_booking 2 exDB34
        = (exDB34, .error ⟨400, "Booking is not in pending state"⟩) := by
  have h : exDB34.bookings.find? (fun x => x.id == 2) = some exBookingConfirmed := by
    with_unfolding_all rfl
  have hs : exBookingConfirmed.status ≠ "PENDING" := by decide
  exact ⟨h, hs, (C4_confirm_booking_guard 2 exDB34 exBookingConfirmed h).1 hs⟩

/-- C5 counterexample: a booking reachable through the API — created on a
store containing lead 1, unit 1 and user 1 (so the insert passes its
foreign keys) with deal amount −100 and no booking_amount (`deal_amount`
is an unvalidated float) — whose ledger status is "Ledger Closed" even
though the paid sum (0) differs from the total sum (−110): the code tests
`pending > 0`, not `paid = total`. -/
theorem C5_counterexample :
    ((create_booking exBD_neg 0 true exDBfull).2 = .ok 1)
    ∧ get_ledger_status 1 (create_booking exBD_neg 0 true exDBfull).1 = "Ledger Closed"
    ∧ paidAmount (schedulesFor 1 (create_booking exBD_neg 0 true exDBfull).1) = 0
    ∧ totalAmount (schedulesFor 1 (create_booking exBD_neg 0 true exDBfull).1) = -110
    ∧ paidAmount (schedulesFor 1 (create_booking exBD_neg 0 true exDBfull).1)
        ≠ totalAmount (schedulesFor 1 (create_booking exBD_neg 0 true exDBfull).1) := by
  refine ⟨?_, ?_, ?_, ?_, ?_⟩
  · with_unfolding_all rfl
  · with_unfolding_all rfl
  · with_unfolding_all rfl
  · with_unfolding_all rfl
  · with_unfolding_all decide

/-- C5 (amended): for every booking with a nonempty schedule, the derived
ledger status is "Ledger Closed" iff the paid sum is at least the total
sum (equivalently, pending = total − paid is not positive) and
"Ledger Active" iff the paid sum is strictly below the total; the
finance-summary variant uses the booking's deal_amount as the total
instead of the schedule-row sum. -/
theorem C5_ledger_status_iff (booking_id : Nat) (db : DB) (booking : Booking)
    (h : schedulesFor booking_id db ≠ []) :
    (get_ledger_status booking_id db = "Ledger Closed"
      ↔ totalAmount (schedulesFor booking_id db)
          ≤ paidAmount (schedulesFor booking_id db))
    ∧ (get_ledger_status booking_id db = "Ledger Active"
      ↔ paidAmount (schedulesFor booking_id db)
          < totalAmount (schedulesFor booking_id db))
    ∧ (finance_summary_status booking db = "Ledger Closed"
      ↔ booking.deal_amount ≤ paidAmount (schedulesFor booking.id db)) := by
  have hne : ¬ ((schedulesFor booking_id db).isEmpty = true) := by
    simpa using h
  refine ⟨?_, ?_, ?_⟩
  · simp only [get_ledger_status]
    rw [if_neg hne]
    by_cases hp : totalAmount (schedulesFor booking_id db)
        - paidAmount (schedulesFor booking_id db) > 0
    · rw [if_pos hp]
      exact iff_of_false (by decide) (not_le.mpr (by linarith))
    · rw [if_neg hp]
      have hle := not_lt.mp hp
      exact iff_of_true rfl (by linarith)
  · simp only [get_ledger_status]
    rw [if_neg hne]
    by_cases hp : totalAmount (schedulesFor booking_id db)
        - paidAmount (schedulesFor booking_id db) > 0
    · rw [if_pos hp]
      exact iff_of_true rfl (by linarith)
    · rw [if_neg hp]
      have hle := not_lt.mp hp
      exact iff_of_false (by decide) (not_lt.mpr (by linarith))
  · simp only [finance_summary_status]
    by_cases hp : booking.deal_amount - paidAmount (schedulesFor booking.id db) > 0
    · rw [if_pos hp]
      exact iff_of_false (by decide) (not_le.mpr (by linarith))
    · rw [if_neg hp]
      have hle := not_lt.mp hp
      exact iff_of_true rfl (by linarith)

/-- Witness for C5 (amended): booking 1 of a store with a single Paid row
of amount 5 has a nonempty schedule, and its ledger-status biconditional
is obtained from the theorem. -/
theorem C5_ledger_status_iff_witness :
    schedulesFor 1 exDB5 ≠ []
    ∧ (get_ledger_status 1 exDB5 = "Ledger Closed"
        ↔ totalAmount (schedulesFor 1 exDB5) ≤ paidAmount (schedulesFor 1 exDB5)) := by
  have h : schedulesFor 1 exDB5 ≠ [] := by with_unfolding_all decide
  exact ⟨h, (C5_ledger_status_iff 1 exDB5 exBookingCancelled h).1⟩

/-- C7: lead assignment fails with 404 if the lead or the user does not
exist; fails with a 400 error and no mutation when the user's
active_leads_count has reached capacity; otherwise sets the lead's owner,
sets its status to IN_PROGRESS, stamps last_contact, and increments the
user's active_leads_count by exactly one. -/
theorem C7_assign_lead_spec (lead_id : Nat) (user_id : Nat) (now : Time)
    (db : DB) :
    (db.leads.find? (fun l => l.id == lead_id) = none →
      assign_lead lead_id ⟨user_id⟩ now db = (db, .error ⟨404, "Lead not found"⟩))
    ∧ (∀ l0, db.leads.find? (fun l => l.id == lead_id) = some l0 →
        db.users.find? (fun u => u.id == user_id) = none →
        assign_lead lead_id ⟨user_id⟩ now db = (db, .error ⟨404, "User not found"⟩))
    ∧ (∀ l0 u0, db.leads.find? (fun l => l.id == lead_id) = some l0 →
        db.users.find? (fun u => u.id == user_id) = some u0 →
        u0.active_leads_count ≥ u0.capacity →
        assign_lead lead_id ⟨user_id⟩ now db
          = (db, .error ⟨400, "User has reached capacity"⟩))
    ∧ (∀ l0 u0, db.leads.find? (fun l => l.id == lead_id) = some l0 →
        db.users.find? (fun u => u.id == user_id) = some u0 →
        u0.active_leads_count < u0.capacity →
        ((assign_lead lead_id ⟨user_id⟩ now db).2 = .ok "Lead assigned")
        ∧ ((assign_lead lead_id ⟨user_id⟩ now db).1.leads.find?
              (fun l => l.id == lead_id)
            = some { l0 with owner_id := some user_id, status := "IN_PROGRESS",
                             last_contact := some now })
        ∧ ((assign_lead lead_id ⟨user_id⟩ now db).1.users.find?
              (fun u => u.id == user_id)
            = some { u0 with
                active_leads_count := u0.active_leads_count + 1 })) := by
  refine ⟨?_, ?_, ?_, ?_⟩
  · intro h
    simp only [assign_lead, h]
  · intro l0 h1 h2
    simp only [assign_lead, h1, h2]
  · intro l0 u0 h1 h2 hc
    simp only [assign_lead, h1, h2]
    rw [if_pos hc]
  · intro l0 u0 h1 h2 hc
    have hnc : ¬ (u0.active_leads_count ≥ u0.capacity) := not_le.mpr hc
    refine ⟨?_, ?_, ?_⟩
    · simp only [assign_lead, h1, h2]
      rw [if_neg hnc]
    · simp only [assign_lead, h1, h2]
      rw [if_neg hnc]
      exact find?_updateFirst_some (by intro x; rfl) h1
    · simp only [assign_lead, h1, h2]
      rw [if_neg hnc]
      exact find?_updateFirst_some (by intro x; rfl) h2

/-- Witness for C7: assigning lead 2 to user 1, whose counter (50) equals
capacity (50), fails with a 400 error and no mutation. -/
theorem C7_assign_lead_spec_witness :
    exDB7.leads.find? (fun l => l.id == 2) = some exLeadNew
    ∧ exDB7.users.find? (fun u => u.id == 1) = some exUserFull
    ∧ exUserFull.active_leads_count ≥ exUserFull.capacity
    ∧ assign_lead 2 ⟨1⟩ 0 exDB7
        = (exDB7, .error ⟨400, "User has reached capacity"⟩) := by
  have h1 : exDB7.leads.find? (fun l => l.id == 2) = some exLeadNew := by
    with_unfolding_all rfl
  have h2 : exDB7.users.find? (fun u => u.id == 1) = some exUserFull := by
    with_unfolding_all rfl
  have hc : exUserFull.active_leads_count ≥ exUserFull.capacity := by decide
  exact ⟨h1, h2, hc,
    (C7_assign_lead_spec 2 1 0 exDB7).2.2.1 exLeadNew exUserFull h1 h2 hc⟩

/-- C9: mark-paid fails with 404 when no row with the booking id and
milestone exists, fails with a 400 error and no mutation when the row is
already Paid, and otherwise marks the row Paid and stamps its payment date
and reference — the same store mutation record-payment performs on an
existing row (with no amount and no explicit date supplied). -/
theorem C9_mark_payment_paid_spec (booking_id : Nat) (milestone : String)
    (payment_ref : Option String) (now : Time) (db : DB) :
    (db.payment_schedules.find? (fun s => s.booking_id == booking_id
        && s.milestone == milestone) = none →
      mark_payment_paid booking_id milestone payment_ref now db
        = (db, .error ⟨404, "Payment schedule not found"⟩))
    ∧ (∀ s0, db.payment_schedules.find? (fun s => s.booking_id == booking_id
        && s.milestone == milestone) = some s0 → s0.status = "Paid" →
      mark_payment_paid booking_id milestone payment_ref now db
        = (db, .error ⟨400, "Payment already marked as paid"⟩))
    ∧ (∀ s0, db.payment_schedules.find? (fun s => s.booking_id == booking_id
        && s.milestone == milestone) = some s0 → s0.status ≠ "Paid" →
      ((mark_payment_paid booking_id milestone payment_ref now db).2 = .ok "Paid")
      ∧ ((mark_payment_paid booking_id milestone payment_ref now db).1.payment_schedules.find?
            (fun s => s.booking_id == booking_id && s.milestone == milestone)
          = some { s0 with status := "Paid", payment_date := some now,
                           payment_ref := payment_ref })
      ∧ ((mark_payment_paid booking_id milestone payment_ref now db).1
          = (record_payment
              { booking_id := booking_id, milestone := milestone, amount := none,
                payment_ref := payment_ref, payment_date := none,
                payer := "Customer" } now db).1)) := by
  refine ⟨?_, ?_, ?_⟩
  · intro h
    simp only [mark_payment_paid, h]
  · intro s0 h hs
    have hb : (s0.status == "Paid") = true := by
      rw [hs]
      exact beq_self_eq_true _
    simp only [mark_payment_paid, h]
    rw [if_pos hb]
  · intro s0 h hs
    have hb : ¬ ((s0.status == "Paid") = true) := by
      simp only [beq_iff_eq]
      exact hs
    refine ⟨?_, ?_, ?_⟩
    · simp only [mark_payment_paid, h]
      rw [if_neg hb]
    · simp only [mark_payment_paid, h]
      rw [if_neg hb]
      exact find?_updateFirst_some (by intro x; rfl) h
    · simp only [mark_payment_paid, record_payment, h]
      rw [if_neg hb]
      rfl

/-- Witness for C9: marking the Pending "Booking Token" row of booking 1
succeeds. -/
theorem C9_mark_payment_paid_spec_witness :
    exDB6.payment_schedules.find? (fun s => s.booking_id == 1
        && s.milestone == "Booking Token") = some exSchedPending
    ∧ exSchedPending.status ≠ "Paid"
    ∧ ((mark_payment_paid 1 "Booking Token" (some "CHQ-9") 0 exDB6).2
        = .ok "Paid") := by
  have h : exDB6.payment_schedules.find? (fun s => s.booking_id == 1
      && s.milestone == "Booking Token") = some exSchedPending := by
    with_unfolding_all rfl
  have hs : exSchedPending.status ≠ "Paid" := by decide
  exact ⟨h, hs,
    ((C9_mark_payment_paid_spec 1 "Booking Token" (some "CHQ-9") 0 exDB6).2.2
      exSchedPending h hs).1⟩

/-- C10 counterexample: on a store holding the creator user 1 but no lead
matching the request's lead id, booking creation does not succeed as the
claim states: the insert violates the bookings.lead_id foreign key
(models.py:75, enforced by the PostgreSQL engine of database.py at
`db.flush()`), so the handler rolls back and returns a 500 with the store
unchanged — no Booking row and no PaymentSchedule rows are created. -/
theorem C10_counterexample :
    exDBuserOnly.leads.find? (fun l => l.id == exBD_neg.lead_id) = none
    ∧ create_booking exBD_neg 0 true exDBuserOnly
        = (exDBuserOnly, .error ⟨500, "Booking creation failed"⟩) := by
  refine ⟨rfl, ?_⟩
  with_unfolding_all rfl

/-- C10 (amended): booking creation performs no existence check on the
referenced unit or project (the project id is never queried, and neither
column carries a foreign key): when the unit id matches no stored Unit but
the referenced lead and the creator user exist, the operation still
succeeds, creating the Booking row and its five PaymentSchedule rows while
silently skipping the unit update; a lead id matching no stored Lead,
however, fails the bookings.lead_id foreign key at insert time, and the
handler reports a 500 with the store fully rolled back. -/
theorem C10_booking_missing_unit (booking_data : BookingCreate) (now : Time)
    (db : DB) (l0 : Lead) (u0 : User)
    (hu : db.units.find? (fun u => u.id == booking_data.unit_id) = none)
    (hl : db.leads.find? (fun l => l.id == booking_data.lead_id) = some l0)
    (hc : db.users.find? (fun u => u.id == 1) = some u0) :
    ((create_booking booking_data now true db).2 = .ok db.next_booking_id)
    ∧ ((create_booking booking_data now true db).1.units = db.units)
    ∧ ((create_booking booking_data now true db).1.bookings
        = db.bookings ++ [newBookingRow db.next_booking_id booking_data])
    ∧ ((create_booking booking_data now true db).1.payment_schedules
        = db.payment_schedules
          ++ bookingSchedules db.next_booking_id db.next_schedule_id booking_data now)
    ∧ (bookingSchedules db.next_booking_id db.next_schedule_id booking_data now).length
        = 5
    ∧ (∀ db2 : DB, db2.leads.find? (fun l => l.id == booking_data.lead_id) = none →
        create_booking booking_data now true db2
          = (db2, .error ⟨500, "Booking creation failed"⟩)) := by
  refine ⟨?_, ?_, ?_, ?_, rfl, ?_⟩
  · simp only [create_booking, hl, hc, reduceIte]
  · simp only [create_booking, hl, hc, reduceIte]
    exact updateFirst_eq_of_find?_none hu
  · simp only [create_booking, hl, hc, reduceIte]
  · simp only [create_booking, hl, hc, reduceIte]
  · intro db2 h2
    simp only [create_booking, h2]

/-- Witness for C10 (amended): with unit 1 absent but lead 1 and user 1
present, creation succeeds and leaves the units table untouched. -/
theorem C10_booking_missing_unit_witness :
    exDBnoUnit.units.find? (fun u => u.id == exBD_neg.unit_id) = none
    ∧ exDBnoUnit.leads.find? (fun l => l.id == exBD_neg.lead_id) = some exLead1
    ∧ exDBnoUnit.users.find? (fun u => u.id == 1) = some exUser1
    ∧ ((create_booking exBD_neg 0 true exDBnoUnit).2
        = .ok exDBnoUnit.next_booking_id)
    ∧ ((create_booking exBD_neg 0 true exDBnoUnit).1.units = exDBnoUnit.units) := by
  have hu : exDBnoUnit.units.find? (fun u => u.id == exBD_neg.unit_id) = none := rfl
  have hl : exDBnoUnit.leads.find? (fun l => l.id == exBD_neg.lead_id)
      = some exLead1 := by
    with_unfolding_all rfl
  have hc : exDBnoUnit.users.find? (fun u => u.id == 1) = some exUser1 := by
    with_unfolding_all rfl
  exact ⟨hu, hl, hc,
    (C10_booking_missing_unit exBD_neg 0 exDBnoUnit exLead1 exUser1 hu hl hc).1,
    (C10_booking_missing_unit exBD_neg 0 exDBnoUnit exLead1 exUser1 hu hl hc).2.1⟩

end CRM

